import Mathlib

/-
Verification of the character-resolution engine of
src/crawl-ref/source/newgame.cc.

The data model (species_type, job_type, weapon_type, char_choice_restriction,
newgame_def) follows the declarations used by newgame.cc.  Enumerations and
lookup functions defined outside this repository snapshot (ng-restr.cc,
jobs.cc, hints.cc, the combo-string parsing helpers) are abstracted into the
`Oracle` structure; where their semantics is needed it is modelled from the
spec, and the corresponding definitions say so in their doc comments.

Randomness is modelled operationally: every call to random2(n) reads an
element of an explicit stream of naturals (reduced mod n, matching
random2's contract of returning a value in [0, n)), and
one_chance_in(k) is random2(k) == 0, exactly as in the source.  The
distributional semantics of the reservoir-sampling loops is given by
`reservoirDist`, which maps the identical loop structure to exact rational
probabilities (a replacement at running count k happens with probability
1/k).  Interactive prompts and the shutdown paths (end(), game_ended) are
modelled as explicit outcomes; unbounded loops carry explicit fuel and
return `none` when the fuel runs out.
-/

/-- The species enumeration (species-type.h, external to this snapshot),
restricted to the constructors newgame.cc mentions: the three placeholder
values and the 27 starting species of `species_order`. -/
inductive species_type where
  | SP_UNKNOWN | SP_RANDOM | SP_VIABLE
  | SP_HUMAN | SP_DEEP_ELF | SP_DEEP_DWARF | SP_HILL_ORC
  | SP_HALFLING | SP_KOBOLD | SP_SPRIGGAN
  | SP_OGRE | SP_TROLL
  | SP_NAGA | SP_CENTAUR | SP_MERFOLK | SP_MINOTAUR
  | SP_TENGU | SP_BASE_DRACONIAN | SP_GARGOYLE | SP_FORMICID
  | SP_BARACHI | SP_GNOLL
  | SP_VINE_STALKER | SP_DEMIGOD | SP_DEMONSPAWN
  | SP_MUMMY | SP_GHOUL | SP_VAMPIRE
  | SP_FELID | SP_OCTOPODE
  deriving DecidableEq, Repr

/-- The job enumeration (job-type.h, external).  newgame.cc casts plain
integers below NUM_JOBS to job_type, so concrete jobs are represented by
their integer enum value via `conc`; the three placeholder values are kept
symbolic. -/
inductive job_type where
  | JOB_UNKNOWN | JOB_RANDOM | JOB_VIABLE
  | conc (idx : Nat)
  deriving DecidableEq, Repr

/-- JOB_FIGHTER is the first entry of the external job enumeration. -/
def JOB_FIGHTER : job_type := .conc 0

/-- The weapon enumeration (weapon_type, external), restricted to the
constructors newgame.cc mentions. -/
inductive weapon_type where
  | WPN_UNKNOWN | WPN_RANDOM | WPN_VIABLE
  | WPN_SHORT_SWORD | WPN_MACE | WPN_HAND_AXE | WPN_SPEAR
  | WPN_FALCHION | WPN_QUARTERSTAFF | WPN_UNARMED
  | WPN_THROWN | WPN_HUNTING_SLING | WPN_SHORTBOW | WPN_HAND_CROSSBOW
  | WPN_RAPIER | WPN_FLAIL | WPN_WAR_AXE | WPN_TRIDENT | WPN_LONG_SWORD
  deriving DecidableEq, Repr

/-- The three-way restriction level of ng-restr.h (external).  CC_BANNED is
the first enumerator (value 0), so a char_choice_restriction used in a C++
boolean context is truthy exactly when it differs from CC_BANNED. -/
inductive char_choice_restriction where
  | CC_BANNED | CC_RESTRICTED | CC_UNRESTRICTED
  deriving DecidableEq, Repr

/-- Game types used by newgame.cc (game-type.h, external), restricted to the
constructors the resolution engine inspects. -/
inductive game_type where
  | GAME_TYPE_NORMAL | GAME_TYPE_TUTORIAL | GAME_TYPE_HINTS | GAME_TYPE_SPRINT
  deriving DecidableEq, Repr

open species_type job_type weapon_type char_choice_restriction game_type

/-- weapon_choice = pair<weapon_type, char_choice_restriction>
(newgame.cc:1391). -/
abbrev weapon_choice := weapon_type × char_choice_restriction

/-- The newgame_def record (newgame.h, external declaration; the fields are
the ones newgame.cc reads and writes). -/
structure newgame_def where
  name : String
  type : game_type
  filename : String
  map : String
  species : species_type
  job : job_type
  weapon : weapon_type
  fully_random : Bool
  allowed_species : List species_type
  allowed_jobs : List job_type
  allowed_weapons : List weapon_type
  allowed_combos : List String
  deriving DecidableEq, Repr

/-- The newgame_def default constructor (newgame.cc:65-71): name empty, type
GAME_TYPE_NORMAL, species/job/weapon unknown, fully_random false; the
remaining members are default-initialised (empty). -/
def newgame_def.init : newgame_def :=
  { name := "", type := GAME_TYPE_NORMAL, filename := "", map := ""
    species := SP_UNKNOWN, job := JOB_UNKNOWN, weapon := WPN_UNKNOWN
    fully_random := false, allowed_species := [], allowed_jobs := []
    allowed_weapons := [], allowed_combos := [] }

/-- newgame_def::clear_character (newgame.cc:73-78). -/
def newgame_def.clear_character (ng : newgame_def) : newgame_def :=
  { ng with species := SP_UNKNOWN, job := JOB_UNKNOWN, weapon := WPN_UNKNOWN }

/-- Result of a pipeline stage: a normal value, a fatal end(1, ...) with its
message, or a user abort (game_ended / end(0)). -/
inductive Outcome (α : Type) where
  | ok (a : α)
  | fatal (msg : String)
  | abort
  deriving DecidableEq, Repr

/-- Sequencing of stages modelled with fuel: `none` (out of fuel), fatal and
abort all stop the pipeline. -/
def obind {α β : Type} :
    Option (Outcome α) → (α → Option (Outcome β)) → Option (Outcome β)
  | none, _ => none
  | some (.fatal m), _ => some (.fatal m)
  | some .abort, _ => some .abort
  | some (.ok a), f => f a

/-- one_chance_in(k) is random2(k) == 0; `r` is the raw random2 draw for this
call.  In particular one_chance_in(1) is always true. -/
def one_chance_in (r k : Nat) : Bool := decide (r % k = 0)

/-- The external compatibility oracle and job/weapon metadata consumed by
newgame.cc.  `restriction` is the spec's `Oracle.restriction(species, job)`
(implemented by job_allowed in ng-restr.cc, external); `weapon_restriction`
is `Oracle.restriction(weapon, species, job)`.  `combo_choice` abstracts the
allowed_combos string parsing of _choose_char (newgame.cc:489-539), whose
helpers (get_species_by_abbrev, str_to_job, str_to_weapon, species_name) are
external: it yields the (species, job, weapon) triple a combo string denotes,
with UNKNOWN components where parsing finds nothing.  `pick_hints` abstracts
hints.cc's pick_hints.  `species_size_small` abstracts
species_size(sp, PSIZE_TORSO) <= SIZE_SMALL used by
_starting_weapon_upgrade. -/
structure Oracle where
  numJobs : Nat
  restriction : species_type → job_type → char_choice_restriction
  weapon_restriction : weapon_type → species_type → job_type → char_choice_restriction
  is_starting_job : job_type → Bool
  job_gets_ranged_weapons : job_type → Bool
  job_gets_good_weapons : job_type → Bool
  job_has_weapon_choice : job_type → Bool
  species_size_small : species_type → Bool
  combo_choice : String → species_type × job_type × weapon_type
  pick_hints : newgame_def → newgame_def

/-- Modelled from the spec: `job_allowed` lives in ng-restr.cc, which is not
part of this snapshot.  Per the spec (§6, §4.2 final check) it is exactly
`Oracle.restriction(species, job)`. -/
def job_allowed (o : Oracle) (sp : species_type) (jb : job_type) :
    char_choice_restriction :=
  o.restriction sp jb

/-- Modelled from the spec: `is_good_combination` lives in ng-restr.cc, which
is not part of this snapshot.  Per the spec (§4.2): with good = true it asks
for RestrictionLevel == UNRESTRICTED, with good = false for
RestrictionLevel != BANNED.  The species_first flag only selects the
direction of the query and does not change this classification. -/
def is_good_combination (o : Oracle) (sp : species_type) (jb : job_type)
    (species_first good : Bool) : Bool :=
  if good then decide (o.restriction sp jb = CC_UNRESTRICTED)
  else decide (o.restriction sp jb ≠ CC_BANNED)

/-- species_order (newgame.cc:190-215). -/
def species_order : List species_type :=
  [ SP_HUMAN, SP_DEEP_ELF,
    SP_DEEP_DWARF, SP_HILL_ORC,
    SP_HALFLING, SP_KOBOLD,
    SP_SPRIGGAN,
    SP_OGRE, SP_TROLL,
    SP_NAGA, SP_CENTAUR,
    SP_MERFOLK, SP_MINOTAUR,
    SP_TENGU, SP_BASE_DRACONIAN,
    SP_GARGOYLE, SP_FORMICID,
    SP_BARACHI, SP_GNOLL,
    SP_VINE_STALKER,
    SP_DEMIGOD, SP_DEMONSPAWN,
    SP_MUMMY, SP_GHOUL,
    SP_VAMPIRE,
    SP_FELID, SP_OCTOPODE ]

/-- is_starting_species (newgame.cc:218-222): membership in species_order. -/
def is_starting_species (sp : species_type) : Bool :=
  decide (sp ∈ species_order)

/-- The single-pass size-1 reservoir-sampling loop shared by
_resolve_species (newgame.cc:238-246 and 262-270), _resolve_job
(newgame.cc:295-304 and 322-332) and _resolve_weapon (newgame.cc:1745-1753):
for each candidate satisfying `p`, increment the running count and replace
the current selection when one_chance_in(count) fires.  `d k` is the raw
random2 draw consumed by the one_chance_in call made at running count k. -/
def reservoir_sample {α : Type} (p : α → Bool) (d : Nat → Nat) :
    List α → Option α → Nat → Option α × Nat
  | [], sel, k => (sel, k)
  | c :: cs, sel, k =>
    if p c then
      reservoir_sample p d cs
        (if one_chance_in (d (k + 1)) (k + 1) then some c else sel) (k + 1)
    else
      reservoir_sample p d cs sel k

/-- Distributional semantics of the same reservoir loop: the exact
probability that the loop, entered with current selection `sel` and running
count `k`, ends with selection `out`.  A satisfying candidate met at running
count k replaces the selection with probability 1/k (one_chance_in(k)),
mirroring `reservoir_sample` branch for branch. -/
def reservoirDist {α : Type} [DecidableEq α] (p : α → Bool) :
    List α → Option α → Nat → Option α → ℚ
  | [], sel, _, out => if out = sel then 1 else 0
  | c :: cs, sel, k, out =>
    if p c then
      (1 / ((k : ℚ) + 1)) * reservoirDist p cs (some c) (k + 1) out
        + ((k : ℚ) / ((k : ℚ) + 1)) * reservoirDist p cs sel (k + 1) out
    else
      reservoirDist p cs sel k out

/-- Random streams consumed by one run of _resolve_species or _resolve_job:
`dViable` feeds the one_chance_in calls of the VIABLE reservoir loop,
`dRandom` those of the RANDOM reservoir loop, and `picks` the random2 calls
of the unconstrained do-while draw (call number i yields picks i, reduced
mod the argument of random2). -/
structure ResolveRand where
  dViable : Nat → Nat
  dRandom : Nat → Nat
  picks : Nat → Nat

/-- The do-while of _resolve_species for SP_RANDOM with unknown job
(newgame.cc:255-257): repeatedly set the species to
RANDOM_ELEMENT(species_order) until is_starting_species holds.  `i` numbers
the random2 calls, `fuel` bounds the iterations (none = fuel exhausted). -/
def draw_random_species (picks : Nat → Nat) : Nat → Nat → Option species_type
  | _, 0 => none
  | i, fuel + 1 =>
    let sp := species_order.getD (picks i % species_order.length) SP_UNKNOWN
    if is_starting_species sp then some sp
    else draw_random_species picks (i + 1) fuel

/-- The do-while of _resolve_job for JOB_RANDOM with unknown species
(newgame.cc:313-317): repeatedly set the job to job_type(random2(NUM_JOBS))
until is_starting_job holds. -/
def draw_random_job (o : Oracle) (picks : Nat → Nat) :
    Nat → Nat → Option job_type
  | _, 0 => none
  | i, fuel + 1 =>
    let jb : job_type := .conc (picks i % o.numJobs)
    if o.is_starting_job jb then some jb
    else draw_random_job o picks (i + 1) fuel

/-- The candidate list the job loops of _resolve_job range over: job_type(i)
for 0 <= i < NUM_JOBS (newgame.cc:296-298, 323-325). -/
def job_list (o : Oracle) : List job_type :=
  (List.range o.numJobs).map .conc

/-- The SP_RANDOM branch of _resolve_species (newgame.cc:251-274), also
reached by fall-through from an unproductive SP_VIABLE loop: with unknown
job, draw any starting species via the do-while; with a known job, reservoir
sample over species_order with the non-banned predicate and call
end(1, "Failed to find legal species.") when no candidate satisfied it. -/
def resolve_species_random (o : Oracle) (r : ResolveRand) (fuel : Nat)
    (ng : newgame_def) : Option (Outcome newgame_def) :=
  if ng.job = JOB_UNKNOWN then
    match draw_random_species r.picks 0 fuel with
    | none => none
    | some sp => some (.ok { ng with species := sp })
  else
    let res := reservoir_sample
      (fun sp => is_good_combination o sp ng.job false false)
      r.dRandom species_order none 0
    if res.2 ≠ 0 then some (.ok { ng with species := res.1.getD ng.species })
    else some (.fatal "Failed to find legal species.")

/-- _resolve_species (newgame.cc:224-280).  An already-concrete ng.species is
never overwritten; SP_UNKNOWN stays unresolved; SP_VIABLE reservoir-samples
over the unrestricted pool and falls through to the SP_RANDOM branch when
that pool was empty; a concrete requested species is copied. -/
def resolve_species (o : Oracle) (r : ResolveRand) (fuel : Nat)
    (ng ng_choice : newgame_def) : Option (Outcome newgame_def) :=
  if ng.species ≠ SP_UNKNOWN then some (.ok ng)
  else
    match ng_choice.species with
    | SP_UNKNOWN => some (.ok { ng with species := SP_UNKNOWN })
    | SP_VIABLE =>
      let res := reservoir_sample
        (fun sp => is_good_combination o sp ng.job false true)
        r.dViable species_order none 0
      if res.2 ≠ 0 then some (.ok { ng with species := res.1.getD ng.species })
      else resolve_species_random o r fuel ng
    | SP_RANDOM => resolve_species_random o r fuel ng
    | sp => some (.ok { ng with species := sp })

/-- The JOB_RANDOM branch of _resolve_job (newgame.cc:309-336), also reached
by fall-through from an unproductive JOB_VIABLE loop.  (The source's
ASSERT(is_starting_job(job)) inside the reservoir loop is a debug-build
check of the external oracle's contract and is not modelled.) -/
def resolve_job_random (o : Oracle) (r : ResolveRand) (fuel : Nat)
    (ng : newgame_def) : Option (Outcome newgame_def) :=
  if ng.species = SP_UNKNOWN then
    match draw_random_job o r.picks 0 fuel with
    | none => none
    | some jb => some (.ok { ng with job := jb })
  else
    let res := reservoir_sample
      (fun jb => is_good_combination o ng.species jb true false)
      r.dRandom (job_list o) none 0
    if res.2 ≠ 0 then some (.ok { ng with job := res.1.getD ng.job })
    else some (.fatal "Failed to find legal background.")

/-- _resolve_job (newgame.cc:282-342), symmetric to _resolve_species. -/
def resolve_job (o : Oracle) (r : ResolveRand) (fuel : Nat)
    (ng ng_choice : newgame_def) : Option (Outcome newgame_def) :=
  if ng.job ≠ JOB_UNKNOWN then some (.ok ng)
  else
    match ng_choice.job with
    | JOB_UNKNOWN => some (.ok { ng with job := JOB_UNKNOWN })
    | JOB_VIABLE =>
      let res := reservoir_sample
        (fun jb => is_good_combination o ng.species jb true true)
        r.dViable (job_list o) none 0
      if res.2 ≠ 0 then some (.ok { ng with job := res.1.getD ng.job })
      else resolve_job_random o r fuel ng
    | JOB_RANDOM => resolve_job_random o r fuel ng
    | jb => some (.ok { ng with job := jb })

/-- The ordering rule of _resolve_species_job (newgame.cc:350-354): species
is resolved first iff spfirst, or neither-forced and the coinflip came up
heads.  spfirst forces species first when only the job asks for VIABLE,
jobfirst forces job first when only the species asks for VIABLE. -/
def species_first_order (ng_choice : newgame_def) (coin : Bool) : Bool :=
  let spfirst := decide (ng_choice.species ≠ SP_VIABLE)
    && decide (ng_choice.job = JOB_VIABLE)
  let jobfirst := decide (ng_choice.species = SP_VIABLE)
    && decide (ng_choice.job ≠ JOB_VIABLE)
  spfirst || (!jobfirst && coin)

/-- Random input for one call of _resolve_species_job: streams for the
species resolver, streams for the job resolver, the coinflip of the ordering
rule, and the fuel bound for the inner do-while draws. -/
structure SJRand where
  r_sp : ResolveRand
  r_jb : ResolveRand
  coin : Bool
  ifuel : Nat

/-- _resolve_species_job (newgame.cc:344-364): resolve the two fields in the
order chosen by `species_first_order`. -/
def resolve_species_job (o : Oracle) (e : SJRand) (ng ng_choice : newgame_def) :
    Option (Outcome newgame_def) :=
  if species_first_order ng_choice e.coin then
    obind (resolve_species o e.r_sp e.ifuel ng ng_choice) fun ng1 =>
      resolve_job o e.r_jb e.ifuel ng1 ng_choice
  else
    obind (resolve_job o e.r_jb e.ifuel ng ng_choice) fun ng1 =>
      resolve_species o e.r_sp e.ifuel ng1 ng_choice

/-- C_SPECIES (newgame.cc:95). -/
def C_SPECIES : Nat := 0

/-- C_JOB (newgame.cc:96). -/
def C_JOB : Nat := 1

/-- The external species/job prompt collaborator _prompt_choice, invoked with
a choice type (C_SPECIES or C_JOB), the current ng and ng_choice and the
defaults; it may rewrite both records, and `none` is the user quitting
(end(0)/game_ended inside the menu).  The menu itself is out-of-scope UI, so
the collaborator is an arbitrary function. -/
def PromptFn : Type :=
  Nat → newgame_def → newgame_def → newgame_def →
    Option (newgame_def × newgame_def)

/-- The while loop of _choose_species_job (newgame.cc:392-404): while the
request still has an UNKNOWN field, prompt for the species if needed,
re-resolve, prompt for the job if needed, re-resolve.  Iteration n consumes
`prompts n` and the resolution randomness `envs (2n)` / `envs (2n+1)`. -/
def choose_species_job_loop (o : Oracle) :
    Nat → (Nat → PromptFn) → (Nat → SJRand) →
    newgame_def → newgame_def → newgame_def →
    Option (Outcome (newgame_def × newgame_def))
  | 0, _, _, _, _, _ => none
  | fuel + 1, prompts, envs, ng, ng_choice, dflt =>
    if ng_choice.species = SP_UNKNOWN ∨ ng_choice.job = JOB_UNKNOWN then
      match (if ng_choice.species = SP_UNKNOWN
             then prompts 0 C_SPECIES ng ng_choice dflt
             else some (ng, ng_choice)) with
      | none => some .abort
      | some (ng1, c1) =>
        obind (resolve_species_job o (envs 0) ng1 c1) fun ng2 =>
        match (if c1.job = JOB_UNKNOWN
               then prompts 0 C_JOB ng2 c1 dflt
               else some (ng2, c1)) with
        | none => some .abort
        | some (ng3, c3) =>
          obind (resolve_species_job o (envs 1) ng3 c3) fun ng4 =>
          choose_species_job_loop o fuel (fun i => prompts (i + 1))
            (fun i => envs (i + 2)) ng4 c3 dflt
    else some (.ok (ng, ng_choice))

/-- _choose_species_job (newgame.cc:387-413): an initial resolution, the
prompting loop, and the final legality check - a BANNED pair at this point is
the fatal end(1, "Incompatible species and background ... selected.")
(job_allowed in a boolean context is truthy iff it differs from CC_BANNED,
whose enumerator value is 0). -/
def choose_species_job (o : Oracle) (prompts : Nat → PromptFn)
    (envs : Nat → SJRand) (fuel : Nat) (ng ng_choice dflt : newgame_def) :
    Option (Outcome (newgame_def × newgame_def)) :=
  obind (resolve_species_job o (envs 0) ng ng_choice) fun ng1 =>
  obind (choose_species_job_loop o fuel prompts (fun i => envs (i + 1))
          ng1 ng_choice dflt) fun p =>
  if job_allowed o p.1.species p.1.job = CC_BANNED then
    some (.fatal "Incompatible species and background selected.")
  else some (.ok p)

/-- _starting_weapon_upgrade (newgame.cc:1663-1686): melee weapons are
upgraded to the job-specific better variant; a small fighter keeps the spear
(no trident with a shield). -/
def starting_weapon_upgrade (o : Oracle) (wp : weapon_type) (jb : job_type)
    (sp : species_type) : weapon_type :=
  let fighter := decide (jb = JOB_FIGHTER)
  match wp with
  | WPN_SHORT_SWORD => WPN_RAPIER
  | WPN_MACE => WPN_FLAIL
  | WPN_HAND_AXE => WPN_WAR_AXE
  | WPN_SPEAR => if fighter && o.species_size_small sp then wp else WPN_TRIDENT
  | WPN_FALCHION => WPN_LONG_SWORD
  | _ => wp

/-- _get_weapons (newgame.cc:1688-1727): the fixed ranged set for
ranged-weapon jobs, otherwise the fixed melee set (upgraded when the job
grants good weapons), keeping each weapon with its restriction when that
restriction is not CC_BANNED. -/
def get_weapons (o : Oracle) (ng : newgame_def) : List weapon_choice :=
  if o.job_gets_ranged_weapons ng.job then
    [WPN_THROWN, WPN_HUNTING_SLING, WPN_SHORTBOW, WPN_HAND_CROSSBOW].filterMap
      (fun w =>
        let r := o.weapon_restriction w ng.species ng.job
        if r ≠ CC_BANNED then some (w, r) else none)
  else
    [WPN_SHORT_SWORD, WPN_MACE, WPN_HAND_AXE, WPN_SPEAR, WPN_FALCHION,
     WPN_QUARTERSTAFF, WPN_UNARMED].filterMap
      (fun w0 =>
        let w := if o.job_gets_good_weapons ng.job then
                   starting_weapon_upgrade o w0 ng.job ng.species
                 else w0
        let r := o.weapon_restriction w ng.species ng.job
        if r ≠ CC_BANNED then some (w, r) else none)

/-- _fixup_weapon (newgame.cc:1393-1402): placeholders pass through, a
concrete weapon survives only if it occurs in the candidate list, otherwise
it degrades to WPN_UNKNOWN (so the player gets prompted). -/
def fixup_weapon (wp : weapon_type) (weapons : List weapon_choice) :
    weapon_type :=
  if wp = WPN_UNKNOWN ∨ wp = WPN_RANDOM ∨ wp = WPN_VIABLE then wp
  else if weapons.any (fun ch => decide (ch.1 = wp)) then wp
  else WPN_UNKNOWN

/-- Random input for one call of _resolve_weapon: the one_chance_in stream of
the VIABLE reservoir loop, the raw random2 draw of the uniform RANDOM pick,
and the raw random2 draw of the allowed_weapons pick. -/
structure WRand where
  dViable : Nat → Nat
  pick : Nat
  pickAllowed : Nat

/-- The WPN_RANDOM branch of _resolve_weapon (newgame.cc:1758-1760), also
reached by fall-through from an unproductive WPN_VIABLE loop: a uniform
index into the (non-banned) candidate list. -/
def weapon_random_draw (r : WRand) (ng : newgame_def)
    (weapons : List weapon_choice) : newgame_def :=
  let wp := (weapons.getD (r.pick % weapons.length) (WPN_UNKNOWN, CC_BANNED)).1
  { ng with weapon := wp }

/-- _resolve_weapon (newgame.cc:1729-1768): an allowed_weapons list overrides
the requested weapon by a uniform pick; WPN_VIABLE reservoir-samples the
unrestricted candidates falling through to WPN_RANDOM when there are none;
any other value goes through _fixup_weapon (note the source passes
ng_choice.weapon there, not the allowed-list pick). -/
def resolve_weapon (r : WRand) (ng ng_choice : newgame_def)
    (weapons : List weapon_choice) : newgame_def :=
  let weapon := if ng_choice.allowed_weapons.length ≠ 0 then
      ng_choice.allowed_weapons.getD
        (r.pickAllowed % ng_choice.allowed_weapons.length) WPN_UNKNOWN
    else ng_choice.weapon
  match weapon with
  | WPN_VIABLE =>
    let res := reservoir_sample (fun ch => decide (ch.2 = CC_UNRESTRICTED))
      r.dViable weapons none 0
    if res.2 ≠ 0 then
      { ng with weapon := ((res.1.map Prod.fst).getD ng.weapon) }
    else weapon_random_draw r ng weapons
  | WPN_RANDOM => weapon_random_draw r ng weapons
  | _ => { ng with weapon := fixup_weapon ng_choice.weapon weapons }

/-- The external weapon prompt collaborator _prompt_weapon: it may rewrite
both records; the returned Bool is false when the user backed out. -/
def WPromptFn : Type :=
  newgame_def → newgame_def → newgame_def → List weapon_choice →
    Bool × newgame_def × newgame_def

/-- _choose_weapon (newgame.cc:1773-1801).  Early trivial successes for
SP_FELID and for jobs without weapon choice; an empty candidate list fails
the source's ASSERT (modelled as a fatal outcome); a singleton list is
auto-assigned to both records with no prompt; otherwise resolve, prompt if
still unknown (false = stage aborted), and re-resolve after the prompt.  The
returned Bool is the C++ return value (false = aborted). -/
def choose_weapon (o : Oracle) (r1 r2 : WRand) (promptW : WPromptFn)
    (ng ng_choice dflt : newgame_def) :
    Outcome ((newgame_def × newgame_def) × Bool) :=
  if ng.species = SP_FELID then .ok ((ng, ng_choice), true)
  else if o.job_has_weapon_choice ng.job = false then .ok ((ng, ng_choice), true)
  else
    match get_weapons o ng with
    | [] => .fatal "ASSERT failed: !weapons.empty()"
    | [w] => .ok (({ ng with weapon := w.1 },
                   { ng_choice with weapon := w.1 }), true)
    | weapons =>
      let ng1 := resolve_weapon r1 ng ng_choice weapons
      if ng1.weapon = WPN_UNKNOWN then
        match promptW ng1 ng_choice dflt weapons with
        | (false, ng2, c2) => .ok ((ng2, c2), false)
        | (true, ng2, c2) =>
          .ok ((resolve_weapon r2 ng2 c2 weapons, c2), true)
      else .ok ((ng1, ng_choice), true)

/-- key_is_escape for the reroll prompt: the ESC key. -/
def key_is_escape (c : Char) : Bool := decide (c = Char.ofNat 27)

/-- _reroll_random (newgame.cc:417-450) reduced to its decision logic: the
prompt key either quits (escape/q, or a hangup was seen - game_ended abort,
returned as none), or answers whether to reroll (n, tab, ! or # reject the
shown character; anything else accepts). -/
def reroll_random (c : Char) (hups : Bool) : Option Bool :=
  if key_is_escape c || decide (c.toLower = 'q') || hups then none
  else some (decide (c.toLower = 'n') || decide (c = '\t')
    || decide (c = '!') || decide (c = '#'))

/-- choose_tutorial_character (newgame.cc:178-183). -/
def choose_tutorial_character (ng_choice : newgame_def) : newgame_def :=
  { ng_choice with
    species := SP_HUMAN
    job := JOB_FIGHTER
    weapon := WPN_FLAIL }

/-- All external input consumed by one iteration of the _choose_char loop:
the raw random2 draws for the allowed_combos / allowed_species /
allowed_jobs / allowed_weapons picks, the prompting and randomness of the
species/job stage (with its fuel), the reroll prompt key and hangup flag,
and the randomness and prompt of the weapon stage. -/
structure CharIterEnv where
  comboPick : Nat
  spPick : Nat
  jbPick : Nat
  wpPick : Nat
  sjPrompts : Nat → PromptFn
  sjEnvs : Nat → SJRand
  sjFuel : Nat
  rerollKey : Char
  hups : Bool
  wRand1 : WRand
  wRand2 : WRand
  wPrompt : WPromptFn

/-- The start of each _choose_char iteration (newgame.cc:489-560): a random
allowed_combos entry (parsed by the external helpers, abstracted as
Oracle.combo_choice) overrides species, job and weapon; otherwise each
non-empty allow-list overrides its field with a uniform pick. -/
def apply_allowed (o : Oracle) (env : CharIterEnv) (choice : newgame_def) :
    newgame_def :=
  if choice.allowed_combos.length ≠ 0 then
    let combo := choice.allowed_combos.getD
      (env.comboPick % choice.allowed_combos.length) ""
    let t := o.combo_choice combo
    { choice with species := t.1, job := t.2.1, weapon := t.2.2 }
  else
    let c1 := if choice.allowed_species.length ≠ 0 then
        let sp := choice.allowed_species.getD
          (env.spPick % choice.allowed_species.length) SP_UNKNOWN
        { choice with species := sp }
      else choice
    let c2 := if c1.allowed_jobs.length ≠ 0 then
        let jb := c1.allowed_jobs.getD
          (env.jbPick % c1.allowed_jobs.length) JOB_UNKNOWN
        { c1 with job := jb }
      else c1
    if c2.allowed_weapons.length ≠ 0 then
      let wp := c2.allowed_weapons.getD
        (env.wpPick % c2.allowed_weapons.length) WPN_UNKNOWN
      { c2 with weapon := wp }
    else c2

/-- The while(true) loop of _choose_char (newgame.cc:487-580).  Each
iteration applies the allow-lists, runs the species/job stage, then - in
fully-random mode - shows the reroll prompt: reject restores ng from the
ng_reset snapshot and loops, quit aborts.  Otherwise the weapon stage runs:
a true result finishes with the current records, a false (aborted) result
restores ng and choice from the snapshot, keeps the last attempt as the new
defaults, and loops. -/
def choose_char_loop (o : Oracle) :
    Nat → (Nat → CharIterEnv) →
    newgame_def → newgame_def → newgame_def → newgame_def →
    Option (Outcome (newgame_def × newgame_def))
  | 0, _, _, _, _, _ => none
  | fuel + 1, envs, ng, choice, dflt, ng_reset =>
    let env := envs 0
    let choice1 := apply_allowed o env choice
    obind (choose_species_job o env.sjPrompts env.sjEnvs env.sjFuel
            ng choice1 dflt) fun p =>
    let wstage : Option (Outcome (newgame_def × newgame_def)) :=
      match choose_weapon o env.wRand1 env.wRand2 env.wPrompt p.1 p.2 dflt with
      | .fatal m => some (.fatal m)
      | .abort => some .abort
      | .ok (q, true) => some (.ok q)
      | .ok (q, false) =>
        choose_char_loop o fuel (fun i => envs (i + 1))
          ng_reset ng_reset q.2 ng_reset
    if p.2.fully_random then
      match reroll_random env.rerollKey env.hups with
      | none => some .abort
      | some true =>
        choose_char_loop o fuel (fun i => envs (i + 1))
          ng_reset p.2 dflt ng_reset
      | some false => wstage
    else wstage

/-- _choose_char (newgame.cc:452-581): snapshot ng, apply the
tutorial/hints presets (which clear the allow-lists), and run the loop.
(The DGAMELAUNCH tournament prompt is compiled out and not modelled.) -/
def choose_char (o : Oracle) (envs : Nat → CharIterEnv) (fuel : Nat)
    (ng choice dflt : newgame_def) :
    Option (Outcome (newgame_def × newgame_def)) :=
  let ng_reset := ng
  let choice1 :=
    if ng.type = GAME_TYPE_TUTORIAL then
      { choose_tutorial_character choice with
        allowed_jobs := [], allowed_species := [], allowed_weapons := [] }
    else if ng.type = GAME_TYPE_HINTS then
      { o.pick_hints choice with
        allowed_jobs := [], allowed_species := [], allowed_weapons := [] }
    else choice
  choose_char_loop o fuel envs ng choice1 dflt ng_reset

/-- A fully permissive concrete oracle for exercising the pipeline: one job,
every combination unrestricted, no weapon choice. -/
def oracle_all_unrestricted : Oracle :=
  { numJobs := 1
    restriction := fun _ _ => CC_UNRESTRICTED
    weapon_restriction := fun _ _ _ => CC_UNRESTRICTED
    is_starting_job := fun _ => true
    job_gets_ranged_weapons := fun _ => false
    job_gets_good_weapons := fun _ => false
    job_has_weapon_choice := fun _ => false
    species_size_small := fun _ => false
    combo_choice := fun _ => (SP_UNKNOWN, JOB_UNKNOWN, WPN_UNKNOWN)
    pick_hints := fun c => c }

/-- A concrete oracle banning every combination. -/
def oracle_all_banned : Oracle :=
  { oracle_all_unrestricted with restriction := fun _ _ => CC_BANNED }

/-- A concrete oracle where everything is merely restricted (playable but
not recommended). -/
def oracle_all_restricted : Oracle :=
  { oracle_all_unrestricted with restriction := fun _ _ => CC_RESTRICTED }

/-- A concrete oracle whose melee job has a weapon choice and exactly one
non-banned weapon (the short sword). -/
def oracle_one_weapon : Oracle :=
  { oracle_all_unrestricted with
    job_has_weapon_choice := fun _ => true
    weapon_restriction := fun w _ _ =>
      if w = WPN_SHORT_SWORD then CC_UNRESTRICTED else CC_BANNED }

/-- Constant-zero random streams for concrete runs (random2 always 0, so
every one_chance_in fires and every pick takes index 0). -/
def rr0 : ResolveRand :=
  { dViable := fun _ => 0, dRandom := fun _ => 0, picks := fun _ => 0 }

/-- Concrete species/job stage randomness: species first, inner fuel 1. -/
def sj0 : SJRand := { r_sp := rr0, r_jb := rr0, coin := true, ifuel := 1 }

/-- Concrete weapon-stage randomness. -/
def wr0 : WRand := { dViable := fun _ => 0, pick := 0, pickAllowed := 0 }

/-- A prompt collaborator that always cancels (never reached in the
concrete runs that use it). -/
def prompt_none : PromptFn := fun _ _ _ _ => none

/-- A weapon prompt collaborator that backs out, leaving the records. -/
def wprompt_back : WPromptFn := fun ng c _ _ => (false, ng, c)

/-- A concrete fully-random request: species and job RANDOM, fully_random
set, no allow-lists. -/
def choice_fr : newgame_def :=
  { newgame_def.init with
    species := SP_RANDOM
    job := JOB_RANDOM
    fully_random := true }

/-- A concrete _choose_char iteration environment with the given reroll
key. -/
def char_env (key : Char) : CharIterEnv :=
  { comboPick := 0, spPick := 0, jbPick := 0, wpPick := 0
    sjPrompts := fun _ => prompt_none
    sjEnvs := fun _ => sj0
    sjFuel := 1
    rerollKey := key
    hups := false
    wRand1 := wr0, wRand2 := wr0
    wPrompt := wprompt_back }

theorem obind_eq_ok {α β : Type} (x : Option (Outcome α))
    (f : α → Option (Outcome β)) (b : β) :
    obind x f = some (.ok b) ↔ ∃ a, x = some (.ok a) ∧ f a = some (.ok b) := by
  cases x with
  | none => simp [obind]
  | some oc =>
    cases oc with
    | ok a => simp [obind]
    | fatal m => simp [obind]
    | abort => simp [obind]

theorem obind_assoc {α β γ : Type} (x : Option (Outcome α))
    (f : α → Option (Outcome β)) (g : β → Option (Outcome γ)) :
    obind (obind x f) g = obind x (fun a => obind (f a) g) := by
  cases x with
  | none => rfl
  | some oc => cases oc <;> rfl

theorem reservoir_sample_no_sat {α : Type} (p : α → Bool) (d : Nat → Nat) :
    ∀ (cs : List α) (sel : Option α) (k : Nat),
      (∀ c ∈ cs, p c = false) →
      reservoir_sample p d cs sel k = (sel, k) := by
  intro cs
  induction cs with
  | nil => intro sel k _; rfl
  | cons c cs ih =>
    intro sel k h
    have hc : p c = false := h c (by simp)
    simp only [reservoir_sample, hc, Bool.false_eq_true, if_false]
    exact ih sel k (fun e he => h e (by simp [he]))

theorem reservoirDist_no_sat {α : Type} [DecidableEq α] (p : α → Bool) :
    ∀ (cs : List α) (sel : Option α) (k : Nat) (out : Option α),
      (∀ c ∈ cs, p c = false) →
      reservoirDist p cs sel k out = if out = sel then 1 else 0 := by
  intro cs
  induction cs with
  | nil => intro sel k out _; rfl
  | cons c cs ih =>
    intro sel k out h
    have hc : p c = false := h c (by simp)
    simp only [reservoirDist, hc, Bool.false_eq_true, if_false]
    exact ih sel k out (fun e he => h e (by simp [he]))

theorem reservoirDist_keep {α : Type} [DecidableEq α] (p : α → Bool) :
    ∀ (cs : List α) (sel out : Option α) (k : Nat),
      1 ≤ k + (cs.filter p).length →
      (∀ c ∈ cs, p c = true → out ≠ some c) →
      reservoirDist p cs sel k out =
        if out = sel then (k : ℚ) / ((k : ℚ) + ((cs.filter p).length : ℚ))
        else 0 := by
  intro cs
  induction cs with
  | nil =>
    intro sel out k hk _
    have hkpos : 0 < k := by simpa using hk
    have hk0 : (k : ℚ) ≠ 0 := by exact_mod_cast hkpos.ne'
    simp only [reservoirDist, List.filter_nil, List.length_nil, Nat.cast_zero,
      add_zero, div_self hk0]
  | cons c cs ih =>
    intro sel out k hk hout
    by_cases hc : p c = true
    · have hfil : (c :: cs).filter p = c :: cs.filter p := by
        simp [List.filter_cons, hc]
      have houtc : out ≠ some c := hout c (by simp) hc
      have h1 := ih (some c) out (k + 1) (by omega)
        (fun e he hpe => hout e (by simp [he]) hpe)
      have h2 := ih sel out (k + 1) (by omega)
        (fun e he hpe => hout e (by simp [he]) hpe)
      simp only [reservoirDist, hc, if_true, hfil, List.length_cons]
      rw [h1, h2, if_neg houtc]
      have hk1 : ((k : ℚ) + 1) ≠ 0 := by positivity
      have hd : ((k : ℚ) + 1 + ((cs.filter p).length : ℚ)) ≠ 0 := by positivity
      split_ifs with hsel
      · push_cast
        field_simp
        exact Or.inl (by ring)
      · simp
    · have hc' : p c = false := by simpa using hc
      have hfil : (c :: cs).filter p = cs.filter p := by
        simp [List.filter_cons, hc']
      simp only [reservoirDist, hc', Bool.false_eq_true, if_false, hfil]
      rw [ih sel out k (by rw [hfil] at hk; exact hk)
        (fun e he hpe => hout e (by simp [he]) hpe)]

theorem reservoirDist_pick {α : Type} [DecidableEq α] (p : α → Bool) :
    ∀ (cs : List α) (sel : Option α) (k : Nat) (c : α),
      p c = true → (cs.filter p).count c = 1 → sel ≠ some c →
      reservoirDist p cs sel k (some c) =
        1 / ((k : ℚ) + ((cs.filter p).length : ℚ)) := by
  intro cs
  induction cs with
  | nil => intro sel k c _ hcount _; simp at hcount
  | cons d cs ih =>
    intro sel k c hpc hcount hsel
    by_cases hd : p d = true
    · have hfil : (d :: cs).filter p = d :: cs.filter p := by
        simp [List.filter_cons, hd]
      rw [hfil] at hcount
      have hk1 : ((k : ℚ) + 1) ≠ 0 := by positivity
      have hdenom : ((k : ℚ) + 1 + ((cs.filter p).length : ℚ)) ≠ 0 := by
        positivity
      by_cases hdc : d = c
      · subst hdc
        have hzero : (cs.filter p).count d = 0 := by
          simp [List.count_cons] at hcount
          omega
        have hnot : d ∉ cs.filter p := List.count_eq_zero.mp hzero
        have hout : ∀ e ∈ cs, p e = true → (some d : Option α) ≠ some e := by
          intro e he hpe heq
          exact hnot (by
            cases Option.some.injEq d e ▸ heq
            exact List.mem_filter.mpr ⟨he, hpe⟩)
        have h1 := reservoirDist_keep p cs (some d) (some d) (k + 1)
          (by omega) hout
        have h2 := reservoirDist_keep p cs sel (some d) (k + 1)
          (by omega) hout
        simp only [reservoirDist, hd, if_true, hfil, List.length_cons]
        rw [h1, h2, if_pos rfl,
          if_neg (fun h => hsel h.symm)]
        push_cast
        field_simp
        ring
      · have hcount' : (cs.filter p).count c = 1 := by
          simpa [List.count_cons, hdc] using hcount
        have h1 := ih (some d) (k + 1) c hpc hcount'
          (fun h => hdc (Option.some.inj h))
        have h2 := ih sel (k + 1) c hpc hcount' hsel
        simp only [reservoirDist, hd, if_true, hfil, List.length_cons]
        rw [h1, h2]
        push_cast
        field_simp
        ring
    · have hd' : p d = false := by simpa using hd
      have hfil : (d :: cs).filter p = cs.filter p := by
        simp [List.filter_cons, hd']
      rw [hfil] at hcount
      simp only [reservoirDist, hd', Bool.false_eq_true, if_false, hfil]
      exact ih sel k c hpc hcount hsel

/-- C1: the size-1 reservoir sampling shared by _resolve_species,
_resolve_job and _resolve_weapon (increment a running count and replace the
selection with probability 1/count) selects each of the M predicate-
satisfying candidates of the stream with probability exactly 1/M when
M >= 1, and when M = 0 it keeps no selection (the loop returns selection
none with count 0, the "no candidate" report) rather than inventing a
value. -/
theorem reservoir_uniform_selection {α : Type} [DecidableEq α]
    (p : α → Bool) (cs : List α) :
    (1 ≤ (cs.filter p).length → (cs.filter p).Nodup →
      ∀ c ∈ cs.filter p,
        reservoirDist p cs none 0 (some c) =
          1 / (((cs.filter p).length : ℚ)))
    ∧ ((cs.filter p).length = 0 →
        reservoirDist p cs none 0 none = 1
        ∧ ∀ d, reservoir_sample p d cs none 0 = (none, 0)) := by
  constructor
  · intro _ hnd c hc
    have hpc : p c = true := (List.mem_filter.mp hc).2
    have hcount : (cs.filter p).count c = 1 :=
      List.count_eq_one_of_mem hnd hc
    have h := reservoirDist_pick p cs none 0 c hpc hcount (by simp)
    simpa using h
  · intro hM
    have hnil : cs.filter p = [] := List.length_eq_zero.mp hM
    have hall : ∀ c ∈ cs, p c = false := by
      intro c hc
      by_contra h
      have hpc : p c = true := by simpa using h
      have : c ∈ cs.filter p := List.mem_filter.mpr ⟨hc, hpc⟩
      simp [hnil] at this
    refine ⟨?_, fun d => reservoir_sample_no_sat p d cs none 0 hall⟩
    rw [reservoirDist_no_sat p cs none 0 none hall]
    simp

/-- Witness for C1 at a concrete stream: candidates [0,1,2,3] with the
even predicate (M = 2, each even candidate selected with probability 1/2),
and with the never-true predicate (M = 0: probability 1 of no selection,
and the loop reports selection none, count 0). -/
theorem reservoir_uniform_selection_witness :
    reservoirDist (fun n => decide (n % 2 = 0)) [0, 1, 2, 3] none 0 (some 2) =
      1 / ((([0, 1, 2, 3].filter (fun n => decide (n % 2 = 0))).length : ℚ))
    ∧ reservoirDist (fun _ : Nat => false) [0, 1, 2, 3] none 0 none = 1
    ∧ reservoir_sample (fun _ : Nat => false) (fun _ => 0) [0, 1, 2, 3]
        none 0 = (none, 0) :=
  ⟨(reservoir_uniform_selection (fun n => decide (n % 2 = 0))
      [0, 1, 2, 3]).1 (by decide) (by decide) 2 (by decide),
   ((reservoir_uniform_selection (fun _ : Nat => false) [0, 1, 2, 3]).2
      (by decide)).1,
   ((reservoir_uniform_selection (fun _ : Nat => false) [0, 1, 2, 3]).2
      (by decide)).2 (fun _ => 0)⟩

/-- C3: in _resolve_species_job the non-VIABLE field is resolved last when
exactly one of species/job requests VIABLE (species first - true - whenever
the job is VIABLE and the species is not, job first - false - in the
symmetric case, for every coinflip value), and when both or neither request
VIABLE the order is exactly the unbiased coinflip. -/
theorem resolution_order_viable_last (ng_choice : newgame_def) :
    (ng_choice.job = JOB_VIABLE → ng_choice.species ≠ SP_VIABLE →
      ∀ coin, species_first_order ng_choice coin = true)
    ∧ (ng_choice.species = SP_VIABLE → ng_choice.job ≠ JOB_VIABLE →
      ∀ coin, species_first_order ng_choice coin = false)
    ∧ ((ng_choice.species = SP_VIABLE ↔ ng_choice.job = JOB_VIABLE) →
      ∀ coin, species_first_order ng_choice coin = coin) := by
  refine ⟨?_, ?_, ?_⟩
  · intro hj hs coin
    simp [species_first_order, hj, hs]
  · intro hs hj coin
    simp [species_first_order, hs, hj]
  · intro hiff coin
    by_cases hs : ng_choice.species = SP_VIABLE
    · have hj := hiff.mp hs
      simp [species_first_order, hs, hj]
    · have hj : ng_choice.job ≠ JOB_VIABLE := fun h => hs (hiff.mpr h)
      simp [species_first_order, hs, hj]

/-- Witness for C3: job-VIABLE requests resolve species first for either
coinflip, species-VIABLE requests resolve job first, and a neither-VIABLE
request follows the coin. -/
theorem resolution_order_viable_last_witness :
    species_first_order
      { newgame_def.init with species := SP_RANDOM, job := JOB_VIABLE }
      false = true
    ∧ species_first_order
      { newgame_def.init with species := SP_VIABLE, job := JOB_RANDOM }
      true = false
    ∧ species_first_order
      { newgame_def.init with species := SP_RANDOM, job := JOB_RANDOM }
      true = true :=
  ⟨(resolution_order_viable_last
      { newgame_def.init with species := SP_RANDOM, job := JOB_VIABLE }).1
      rfl (by decide) false,
   (resolution_order_viable_last
      { newgame_def.init with species := SP_VIABLE, job := JOB_RANDOM }).2.1
      rfl (by decide) true,
   (resolution_order_viable_last
      { newgame_def.init with species := SP_RANDOM, job := JOB_RANDOM }).2.2
      (by simp) true⟩

theorem draw_random_job_terminates (o : Oracle) (picks : Nat → Nat) :
    ∀ (i start : Nat),
      o.is_starting_job (.conc (picks (start + i) % o.numJobs)) = true →
      ∃ fuel jb, draw_random_job o picks start fuel = some jb
        ∧ o.is_starting_job jb = true := by
  intro i
  induction i with
  | zero =>
    intro start hi
    rw [Nat.add_zero] at hi
    exact ⟨1, .conc (picks start % o.numJobs),
      by simp [draw_random_job, hi], hi⟩
  | succ n ihn =>
    intro start hi
    by_cases h0 : o.is_starting_job (.conc (picks start % o.numJobs)) = true
    · exact ⟨1, .conc (picks start % o.numJobs),
        by simp [draw_random_job, h0], h0⟩
    · have hi' : o.is_starting_job
          (.conc (picks ((start + 1) + n) % o.numJobs)) = true := by
        have he : start + 1 + n = start + (n + 1) := by omega
        rw [he]
        exact hi
      obtain ⟨fuel, jb, hrun, hjb⟩ := ihn (start + 1) hi'
      refine ⟨fuel + 1, jb, ?_, hjb⟩
      have h0' : o.is_starting_job (.conc (picks start % o.numJobs)) = false :=
        by simpa using h0
      simp [draw_random_job, h0', hrun]

/-- C10: the rejection-sampling do-while loops terminate.  Every element of
species_order is a starting species (is_starting_species is membership in
species_order), so the _resolve_species do-while returns after its first
iteration - its result is the first RANDOM_ELEMENT pick - for every random
stream and any positive fuel; and the _resolve_job do-while terminates for
every random stream that eventually yields a starting-job index. -/
theorem random_draw_loops_terminate :
    (∀ sp ∈ species_order, is_starting_species sp = true)
    ∧ (∀ (picks : Nat → Nat) (i fuel : Nat),
        draw_random_species picks i (fuel + 1) =
          some (species_order.getD (picks i % species_order.length)
            SP_UNKNOWN))
    ∧ (∀ (o : Oracle) (picks : Nat → Nat) (start : Nat),
        (∃ i, o.is_starting_job
          (.conc (picks (start + i) % o.numJobs)) = true) →
        ∃ fuel jb, draw_random_job o picks start fuel = some jb
          ∧ o.is_starting_job jb = true) := by
  refine ⟨by decide, ?_, ?_⟩
  · intro picks i fuel
    have hlt : picks i % species_order.length < species_order.length :=
      Nat.mod_lt _ (by decide)
    have hmem : species_order.getD (picks i % species_order.length)
        SP_UNKNOWN ∈ species_order := by
      rw [List.getD_eq_getElem species_order SP_UNKNOWN hlt]
      exact List.getElem_mem hlt
    have hstart : is_starting_species
        (species_order.getD (picks i % species_order.length) SP_UNKNOWN)
        = true := by
      unfold is_starting_species
      exact decide_eq_true hmem
    simp only [draw_random_species, hstart]
    simp
  · intro o picks start h
    obtain ⟨i, hi⟩ := h
    exact draw_random_job_terminates o picks i start hi

/-- Witness for C10: with the all-zero stream the species do-while returns
the first element of species_order at once, SP_HUMAN is a starting species,
and the job do-while terminates for an oracle whose jobs are all
starting. -/
theorem random_draw_loops_terminate_witness :
    is_starting_species SP_HUMAN = true
    ∧ draw_random_species (fun _ => 0) 0 1 =
        some (species_order.getD (0 % species_order.length) SP_UNKNOWN)
    ∧ ∃ fuel jb,
        draw_random_job oracle_all_unrestricted (fun _ => 0) 0 fuel = some jb
        ∧ oracle_all_unrestricted.is_starting_job jb = true :=
  ⟨random_draw_loops_terminate.1 SP_HUMAN (by decide),
   random_draw_loops_terminate.2.1 (fun _ => 0) 0 0,
   random_draw_loops_terminate.2.2 oracle_all_unrestricted (fun _ => 0) 0
     ⟨0, rfl⟩⟩

/-- C6: a field-resolution step on an already-concrete field is a no-op -
_resolve_species (resp. _resolve_job) returns the record unchanged whenever
ng.species (resp. ng.job) is already concrete, for every request and
randomness - and hence running the step twice never changes an
already-concrete field. -/
theorem resolve_concrete_noop (o : Oracle) :
    (∀ r fuel ng c, ng.species ≠ SP_UNKNOWN →
      resolve_species o r fuel ng c = some (.ok ng))
    ∧ (∀ r fuel ng c, ng.job ≠ JOB_UNKNOWN →
      resolve_job o r fuel ng c = some (.ok ng))
    ∧ (∀ r fuel r2 fuel2 ng c c2, ng.species ≠ SP_UNKNOWN →
      obind (resolve_species o r fuel ng c)
        (fun ng1 => resolve_species o r2 fuel2 ng1 c2) = some (.ok ng))
    ∧ (∀ r fuel r2 fuel2 ng c c2, ng.job ≠ JOB_UNKNOWN →
      obind (resolve_job o r fuel ng c)
        (fun ng1 => resolve_job o r2 fuel2 ng1 c2) = some (.ok ng)) := by
  have hsp : ∀ r fuel ng c, ng.species ≠ SP_UNKNOWN →
      resolve_species o r fuel ng c = some (.ok ng) := by
    intro r fuel ng c h
    simp [resolve_species, h]
  have hjb : ∀ r fuel ng c, ng.job ≠ JOB_UNKNOWN →
      resolve_job o r fuel ng c = some (.ok ng) := by
    intro r fuel ng c h
    simp [resolve_job, h]
  refine ⟨hsp, hjb, ?_, ?_⟩
  · intro r fuel r2 fuel2 ng c c2 h
    rw [hsp r fuel ng c h]
    simpa [obind] using hsp r2 fuel2 ng c2 h
  · intro r fuel r2 fuel2 ng c c2 h
    rw [hjb r fuel ng c h]
    simpa [obind] using hjb r2 fuel2 ng c2 h

/-- Witness for C6: with a concrete species (resp. job) in the resolved
record, one and two runs of the corresponding resolution step leave the
record untouched, even against a request asking for SP_RANDOM /
JOB_RANDOM. -/
theorem resolve_concrete_noop_witness :
    resolve_species oracle_all_unrestricted rr0 0
      { newgame_def.init with species := SP_HUMAN }
      { newgame_def.init with species := SP_RANDOM } =
      some (.ok { newgame_def.init with species := SP_HUMAN })
    ∧ resolve_job oracle_all_unrestricted rr0 0
      { newgame_def.init with job := JOB_FIGHTER }
      { newgame_def.init with job := JOB_RANDOM } =
      some (.ok { newgame_def.init with job := JOB_FIGHTER })
    ∧ obind (resolve_species oracle_all_unrestricted rr0 0
        { newgame_def.init with species := SP_HUMAN }
        { newgame_def.init with species := SP_RANDOM })
      (fun ng1 => resolve_species oracle_all_unrestricted rr0 0 ng1
        { newgame_def.init with species := SP_VIABLE }) =
      some (.ok { newgame_def.init with species := SP_HUMAN }) :=
  ⟨(resolve_concrete_noop oracle_all_unrestricted).1 rr0 0
      { newgame_def.init with species := SP_HUMAN }
      { newgame_def.init with species := SP_RANDOM } (by decide),
   (resolve_concrete_noop oracle_all_unrestricted).2.1 rr0 0
      { newgame_def.init with job := JOB_FIGHTER }
      { newgame_def.init with job := JOB_RANDOM } (by decide),
   (resolve_concrete_noop oracle_all_unrestricted).2.2.1 rr0 0 rr0 0
      { newgame_def.init with species := SP_HUMAN }
      { newgame_def.init with species := SP_RANDOM }
      { newgame_def.init with species := SP_VIABLE } (by decide)⟩

/-- C4: a VIABLE single-field resolution step whose unrestricted pool is
empty does not fail - it behaves exactly as the same step with a RANDOM
request (the intentional fall-through in _resolve_species, _resolve_job and
_resolve_weapon), drawing from the broader non-banned pool. -/
theorem viable_empty_falls_to_random (o : Oracle) :
    (∀ (r : ResolveRand) (fuel : Nat) (ng c : newgame_def),
      ng.species = SP_UNKNOWN → c.species = SP_VIABLE →
      (∀ sp ∈ species_order, o.restriction sp ng.job ≠ CC_UNRESTRICTED) →
      resolve_species o r fuel ng c =
        resolve_species o r fuel ng { c with species := SP_RANDOM })
    ∧ (∀ (r : ResolveRand) (fuel : Nat) (ng c : newgame_def),
      ng.job = JOB_UNKNOWN → c.job = JOB_VIABLE →
      (∀ jb ∈ job_list o, o.restriction ng.species jb ≠ CC_UNRESTRICTED) →
      resolve_job o r fuel ng c =
        resolve_job o r fuel ng { c with job := JOB_RANDOM })
    ∧ (∀ (r : WRand) (ng c : newgame_def) (weapons : List weapon_choice),
      c.allowed_weapons = [] → c.weapon = WPN_VIABLE →
      (∀ w ∈ weapons, (w : weapon_choice).2 ≠ CC_UNRESTRICTED) →
      resolve_weapon r ng c weapons =
        resolve_weapon r ng { c with weapon := WPN_RANDOM } weapons) := by
  refine ⟨?_, ?_, ?_⟩
  · intro r fuel ng c hng hc h
    have hall : ∀ sp ∈ species_order,
        is_good_combination o sp ng.job false true = false := by
      intro sp hsp
      simp [is_good_combination, h sp hsp]
    have hres := reservoir_sample_no_sat
      (fun sp => is_good_combination o sp ng.job false true) r.dViable
      species_order none 0 hall
    simp [resolve_species, hng, hc, hres]
  · intro r fuel ng c hng hc h
    have hall : ∀ jb ∈ job_list o,
        is_good_combination o ng.species jb true true = false := by
      intro jb hjb
      simp [is_good_combination, h jb hjb]
    have hres := reservoir_sample_no_sat
      (fun jb => is_good_combination o ng.species jb true true) r.dViable
      (job_list o) none 0 hall
    simp [resolve_job, hng, hc, hres]
  · intro r ng c weapons hemp hc h
    have hall : ∀ w ∈ weapons,
        (fun ch : weapon_choice => decide (ch.2 = CC_UNRESTRICTED)) w
          = false := by
      intro w hw
      simp [h w hw]
    have hres := reservoir_sample_no_sat
      (fun ch : weapon_choice => decide (ch.2 = CC_UNRESTRICTED)) r.dViable
      weapons none 0 hall
    simp [resolve_weapon, hemp, hc, hres]

/-- Witness for C4: against an oracle where everything is RESTRICTED (so no
unrestricted candidate exists anywhere), the VIABLE species, job and weapon
steps coincide with their RANDOM counterparts on concrete inputs. -/
theorem viable_empty_falls_to_random_witness :
    resolve_species oracle_all_restricted rr0 1 newgame_def.init
      { newgame_def.init with species := SP_VIABLE } =
      resolve_species oracle_all_restricted rr0 1 newgame_def.init
        { newgame_def.init with species := SP_RANDOM }
    ∧ resolve_job oracle_all_restricted rr0 1 newgame_def.init
      { newgame_def.init with job := JOB_VIABLE } =
      resolve_job oracle_all_restricted rr0 1 newgame_def.init
        { newgame_def.init with job := JOB_RANDOM }
    ∧ resolve_weapon wr0 newgame_def.init
      { newgame_def.init with weapon := WPN_VIABLE }
      [(WPN_MACE, CC_RESTRICTED), (WPN_SPEAR, CC_RESTRICTED)] =
      resolve_weapon wr0 newgame_def.init
        { newgame_def.init with weapon := WPN_RANDOM }
        [(WPN_MACE, CC_RESTRICTED), (WPN_SPEAR, CC_RESTRICTED)] :=
  ⟨(viable_empty_falls_to_random oracle_all_restricted).1 rr0 1
      newgame_def.init { newgame_def.init with species := SP_VIABLE }
      rfl rfl (by decide),
   (viable_empty_falls_to_random oracle_all_restricted).2.1 rr0 1
      newgame_def.init { newgame_def.init with job := JOB_VIABLE }
      rfl rfl (by decide),
   (viable_empty_falls_to_random oracle_all_restricted).2.2 wr0
      newgame_def.init { newgame_def.init with weapon := WPN_VIABLE }
      [(WPN_MACE, CC_RESTRICTED), (WPN_SPEAR, CC_RESTRICTED)]
      rfl rfl (by decide)⟩

/-- C5: a RANDOM (or fallen-through VIABLE) species or job draw with the
other field already concrete ends the process fatally with the source's
descriptive message when every candidate is BANNED against that field; no
record is returned. -/
theorem random_empty_pool_fatal (o : Oracle) :
    (∀ (r : ResolveRand) (fuel : Nat) (ng c : newgame_def),
      ng.species = SP_UNKNOWN → ng.job ≠ JOB_UNKNOWN →
      (c.species = SP_RANDOM ∨ c.species = SP_VIABLE) →
      (∀ sp ∈ species_order, o.restriction sp ng.job = CC_BANNED) →
      resolve_species o r fuel ng c =
        some (.fatal "Failed to find legal species."))
    ∧ (∀ (r : ResolveRand) (fuel : Nat) (ng c : newgame_def),
      ng.job = JOB_UNKNOWN → ng.species ≠ SP_UNKNOWN →
      (c.job = JOB_RANDOM ∨ c.job = JOB_VIABLE) →
      (∀ jb ∈ job_list o, o.restriction ng.species jb = CC_BANNED) →
      resolve_job o r fuel ng c =
        some (.fatal "Failed to find legal background.")) := by
  constructor
  · intro r fuel ng c hng hjob hcs h
    have hrand : resolve_species_random o r fuel ng =
        some (.fatal "Failed to find legal species.") := by
      have hall : ∀ sp ∈ species_order,
          is_good_combination o sp ng.job false false = false := by
        intro sp hsp
        simp [is_good_combination, h sp hsp]
      have hres := reservoir_sample_no_sat
        (fun sp => is_good_combination o sp ng.job false false) r.dRandom
        species_order none 0 hall
      simp [resolve_species_random, hjob, hres]
    rcases hcs with hc | hc
    · simp [resolve_species, hng, hc, hrand]
    · have hallv : ∀ sp ∈ species_order,
          is_good_combination o sp ng.job false true = false := by
        intro sp hsp
        simp [is_good_combination, h sp hsp]
      have hresv := reservoir_sample_no_sat
        (fun sp => is_good_combination o sp ng.job false true) r.dViable
        species_order none 0 hallv
      simp [resolve_species, hng, hc, hresv, hrand]
  · intro r fuel ng c hng hsp hcs h
    have hrand : resolve_job_random o r fuel ng =
        some (.fatal "Failed to find legal background.") := by
      have hall : ∀ jb ∈ job_list o,
          is_good_combination o ng.species jb true false = false := by
        intro jb hjb
        simp [is_good_combination, h jb hjb]
      have hres := reservoir_sample_no_sat
        (fun jb => is_good_combination o ng.species jb true false) r.dRandom
        (job_list o) none 0 hall
      simp [resolve_job_random, hsp, hres]
    rcases hcs with hc | hc
    · simp [resolve_job, hng, hc, hrand]
    · have hallv : ∀ jb ∈ job_list o,
          is_good_combination o ng.species jb true true = false := by
        intro jb hjb
        simp [is_good_combination, h jb hjb]
      have hresv := reservoir_sample_no_sat
        (fun jb => is_good_combination o ng.species jb true true) r.dViable
        (job_list o) none 0 hallv
      simp [resolve_job, hng, hc, hresv, hrand]

/-- Witness for C5: against the all-banning oracle, a RANDOM species draw
with a fixed job (and a RANDOM job draw with a fixed species) ends with the
fatal configuration message. -/
theorem random_empty_pool_fatal_witness :
    resolve_species oracle_all_banned rr0 1
      { newgame_def.init with job := JOB_FIGHTER }
      { newgame_def.init with species := SP_RANDOM } =
      some (.fatal "Failed to find legal species.")
    ∧ resolve_job oracle_all_banned rr0 1
      { newgame_def.init with species := SP_HUMAN }
      { newgame_def.init with job := JOB_RANDOM } =
      some (.fatal "Failed to find legal background.") :=
  ⟨(random_empty_pool_fatal oracle_all_banned).1 rr0 1
      { newgame_def.init with job := JOB_FIGHTER }
      { newgame_def.init with species := SP_RANDOM }
      rfl (by decide) (Or.inl rfl) (by decide),
   (random_empty_pool_fatal oracle_all_banned).2 rr0 1
      { newgame_def.init with species := SP_HUMAN }
      { newgame_def.init with job := JOB_RANDOM }
      rfl (by decide) (Or.inl rfl) (by decide)⟩

/-- C7: when the weapon stage runs (weapon-using species, job with a weapon
choice) and the computed legal candidate list has exactly one element,
_choose_weapon assigns that weapon to both the resolved record and the
request and returns success, for every prompt collaborator (so no prompt is
consulted) and every randomness. -/
theorem single_weapon_auto_assigned (o : Oracle) (r1 r2 : WRand)
    (promptW : WPromptFn) (ng c dflt : newgame_def) (w : weapon_choice)
    (hsp : ng.species ≠ SP_FELID)
    (hjob : o.job_has_weapon_choice ng.job = true)
    (hw : get_weapons o ng = [w]) :
    choose_weapon o r1 r2 promptW ng c dflt =
      .ok (({ ng with weapon := w.1 }, { c with weapon := w.1 }), true) := by
  simp [choose_weapon, hsp, hjob, hw]

/-- Witness for C7: a human with the one-non-banned-weapon oracle gets the
short sword written into both records with no prompt. -/
theorem single_weapon_auto_assigned_witness :
    choose_weapon oracle_one_weapon wr0 wr0 wprompt_back
      { newgame_def.init with species := SP_HUMAN, job := JOB_FIGHTER }
      newgame_def.init newgame_def.init =
      .ok (({ newgame_def.init with
                species := SP_HUMAN, job := JOB_FIGHTER,
                weapon := WPN_SHORT_SWORD },
            { newgame_def.init with weapon := WPN_SHORT_SWORD }), true) :=
  single_weapon_auto_assigned oracle_one_weapon wr0 wr0 wprompt_back
    { newgame_def.init with species := SP_HUMAN, job := JOB_FIGHTER }
    newgame_def.init newgame_def.init (WPN_SHORT_SWORD, CC_UNRESTRICTED)
    (by decide) rfl (by decide)

/-- C8: the weapon stage succeeds trivially - success with both records
untouched, hence no weapon assigned and no prompt consulted - whenever the
species has no weapon use at all (SP_FELID) or the job grants no weapon
choice. -/
theorem weapon_stage_trivial_success (o : Oracle) (r1 r2 : WRand)
    (promptW : WPromptFn) (ng c dflt : newgame_def)
    (h : ng.species = SP_FELID ∨ o.job_has_weapon_choice ng.job = false) :
    choose_weapon o r1 r2 promptW ng c dflt = .ok ((ng, c), true) := by
  rcases h with h | h
  · simp [choose_weapon, h]
  · by_cases hsp : ng.species = SP_FELID
    · simp [choose_weapon, hsp]
    · simp [choose_weapon, hsp, h]

/-- Witness for C8: a felid fighter (and likewise a job without weapon
choice) passes the weapon stage with no weapon and no prompt. -/
theorem weapon_stage_trivial_success_witness :
    choose_weapon oracle_one_weapon wr0 wr0 wprompt_back
      { newgame_def.init with species := SP_FELID, job := JOB_FIGHTER }
      newgame_def.init newgame_def.init =
      .ok ((({ newgame_def.init with
                 species := SP_FELID, job := JOB_FIGHTER } : newgame_def),
            newgame_def.init), true) :=
  weapon_stage_trivial_success oracle_one_weapon wr0 wr0 wprompt_back
    { newgame_def.init with species := SP_FELID, job := JOB_FIGHTER }
    newgame_def.init newgame_def.init (Or.inl rfl)

/-- C2: every (species, job) pair _choose_species_job returns normally is
not BANNED per the oracle; and when the resolved pair is BANNED the
function instead terminates with the fatal post-resolution check. -/
theorem choose_species_job_not_banned (o : Oracle) (prompts : Nat → PromptFn)
    (envs : Nat → SJRand) (fuel : Nat) (ng ng_choice dflt : newgame_def) :
    (∀ ngf cf,
      choose_species_job o prompts envs fuel ng ng_choice dflt =
        some (.ok (ngf, cf)) →
      job_allowed o ngf.species ngf.job ≠ CC_BANNED)
    ∧ (∀ p,
      obind (resolve_species_job o (envs 0) ng ng_choice)
        (fun ng1 => choose_species_job_loop o fuel prompts
          (fun i => envs (i + 1)) ng1 ng_choice dflt) = some (.ok p) →
      job_allowed o p.1.species p.1.job = CC_BANNED →
      choose_species_job o prompts envs fuel ng ng_choice dflt =
        some (.fatal "Incompatible species and background selected.")) := by
  constructor
  · intro ngf cf h
    unfold choose_species_job at h
    rw [obind_eq_ok] at h
    obtain ⟨ng1, _, hrest⟩ := h
    rw [obind_eq_ok] at hrest
    obtain ⟨p, _, hcheck⟩ := hrest
    by_cases hban : job_allowed o p.1.species p.1.job = CC_BANNED
    · rw [if_pos hban] at hcheck
      simp at hcheck
    · rw [if_neg hban] at hcheck
      have hp : p = (ngf, cf) := by simpa using hcheck
      rw [hp] at hban
      exact hban
  · intro p h hban
    unfold choose_species_job
    rw [← obind_assoc, h]
    simp [obind, hban]

/-- Witness for C2: a concrete run with a fully unrestricted oracle returns
a human fighter-index pair that is indeed not banned, and the same run
against the all-banning oracle ends with the fatal incompatibility
message. -/
theorem choose_species_job_not_banned_witness :
    job_allowed oracle_all_unrestricted SP_HUMAN (job_type.conc 0) ≠ CC_BANNED
    ∧ choose_species_job oracle_all_banned (fun _ => prompt_none)
        (fun _ => sj0) 1 newgame_def.init
        { newgame_def.init with species := SP_HUMAN, job := job_type.conc 0 }
        newgame_def.init =
        some (.fatal "Incompatible species and background selected.") :=
  ⟨(choose_species_job_not_banned oracle_all_unrestricted
      (fun _ => prompt_none) (fun _ => sj0) 1 newgame_def.init
      { newgame_def.init with species := SP_HUMAN, job := job_type.conc 0 }
      newgame_def.init).1
      { newgame_def.init with species := SP_HUMAN, job := job_type.conc 0 }
      { newgame_def.init with species := SP_HUMAN, job := job_type.conc 0 }
      rfl,
   (choose_species_job_not_banned oracle_all_banned
      (fun _ => prompt_none) (fun _ => sj0) 1 newgame_def.init
      { newgame_def.init with species := SP_HUMAN, job := job_type.conc 0 }
      newgame_def.init).2
      ({ newgame_def.init with species := SP_HUMAN, job := job_type.conc 0 },
       { newgame_def.init with species := SP_HUMAN, job := job_type.conc 0 })
      rfl rfl⟩

theorem choose_species_job_choice_eq (o : Oracle) (prompts : Nat → PromptFn)
    (envs : Nat → SJRand) (fuel : Nat) (ng c dflt ngf cf : newgame_def)
    (hsp : c.species ≠ SP_UNKNOWN) (hjb : c.job ≠ JOB_UNKNOWN)
    (h : choose_species_job o prompts envs fuel ng c dflt =
      some (.ok (ngf, cf))) :
    cf = c := by
  unfold choose_species_job at h
  rw [obind_eq_ok] at h
  obtain ⟨ng1, _, hrest⟩ := h
  rw [obind_eq_ok] at hrest
  obtain ⟨p, hloop, hcheck⟩ := hrest
  have hp2 : p.2 = c := by
    cases fuel with
    | zero => simp [choose_species_job_loop] at hloop
    | succ n =>
      have hcond : ¬(c.species = SP_UNKNOWN ∨ c.job = JOB_UNKNOWN) := by
        tauto
      simp only [choose_species_job_loop] at hloop
      rw [if_neg hcond] at hloop
      have hpe : (ng1, c) = p := by simpa using hloop
      simp [← hpe]
  by_cases hban : job_allowed o p.1.species p.1.job = CC_BANNED
  · rw [if_pos hban] at hcheck
    simp at hcheck
  · rw [if_neg hban] at hcheck
    have hpe : p = (ngf, cf) := by simpa using hcheck
    rw [hpe] at hp2
    exact hp2

/-- C9: in fully-random mode each rejection of the reroll prompt restores
the working record to the pre-resolution snapshot, so attempt N+1 starts
from exactly the state attempt 1 started from (same request with its
wildcard markers, same defaults, same snapshot - only the random streams
advance); quitting at the prompt aborts the process; and accepting leaves
the loop with the currently resolved character via the weapon stage. -/
theorem reroll_restores_snapshot (o : Oracle) (envs : Nat → CharIterEnv)
    (fuel : Nat) (ng_reset choice dflt ng1 c2 : newgame_def)
    (hfr : choice.fully_random = true)
    (hsp : choice.species = SP_RANDOM ∨ choice.species = SP_VIABLE)
    (hjb : choice.job = JOB_RANDOM ∨ choice.job = JOB_VIABLE)
    (hcombos : choice.allowed_combos = [])
    (hspl : choice.allowed_species = [])
    (hjbl : choice.allowed_jobs = [])
    (hwpl : choice.allowed_weapons = [])
    (hstage : choose_species_job o (envs 0).sjPrompts (envs 0).sjEnvs
        (envs 0).sjFuel ng_reset choice dflt = some (.ok (ng1, c2))) :
    (reroll_random (envs 0).rerollKey (envs 0).hups = some true →
      choose_char_loop o (fuel + 1) envs ng_reset choice dflt ng_reset =
        choose_char_loop o fuel (fun i => envs (i + 1)) ng_reset choice dflt
          ng_reset)
    ∧ (reroll_random (envs 0).rerollKey (envs 0).hups = none →
      choose_char_loop o (fuel + 1) envs ng_reset choice dflt ng_reset =
        some .abort)
    ∧ (∀ q, reroll_random (envs 0).rerollKey (envs 0).hups = some false →
      choose_weapon o (envs 0).wRand1 (envs 0).wRand2 (envs 0).wPrompt
        ng1 c2 dflt = .ok (q, true) →
      choose_char_loop o (fuel + 1) envs ng_reset choice dflt ng_reset =
        some (.ok q)) := by
  have hspu : choice.species ≠ SP_UNKNOWN := by
    rcases hsp with h | h <;> simp [h]
  have hjbu : choice.job ≠ JOB_UNKNOWN := by
    rcases hjb with h | h <;> simp [h]
  have hc2 : c2 = choice :=
    choose_species_job_choice_eq o (envs 0).sjPrompts (envs 0).sjEnvs
      (envs 0).sjFuel ng_reset choice dflt ng1 c2 hspu hjbu hstage
  rw [hc2] at hstage
  have happ : apply_allowed o (envs 0) choice = choice := by
    simp [apply_allowed, hcombos, hspl, hjbl, hwpl]
  refine ⟨?_, ?_, ?_⟩
  · intro hr
    simp only [choose_char_loop]
    rw [happ, hstage]
    simp only [obind]
    simp [hfr, hr]
  · intro hr
    simp only [choose_char_loop]
    rw [happ, hstage]
    simp only [obind]
    simp [hfr, hr]
  · intro q hr hwp
    rw [hc2] at hwp
    simp only [choose_char_loop]
    rw [happ, hstage]
    simp only [obind]
    simp [hfr, hr, hwp]

/-- Witness for C9 at a concrete fully-random run (the resolved attempt is
a human with job index 0): rejecting with key n makes attempt 2 start from
the identical snapshot state, quitting with key q aborts, and accepting
with key y returns the resolved character. -/
theorem reroll_restores_snapshot_witness :
    (choose_char_loop oracle_all_unrestricted 1 (fun _ => char_env 'n')
      newgame_def.init choice_fr newgame_def.init newgame_def.init =
      choose_char_loop oracle_all_unrestricted 0 (fun _ => char_env 'n')
        newgame_def.init choice_fr newgame_def.init newgame_def.init)
    ∧ (choose_char_loop oracle_all_unrestricted 1 (fun _ => char_env 'q')
      newgame_def.init choice_fr newgame_def.init newgame_def.init =
      some .abort)
    ∧ (choose_char_loop oracle_all_unrestricted 1 (fun _ => char_env 'y')
      newgame_def.init choice_fr newgame_def.init newgame_def.init =
      some (.ok ({ newgame_def.init with
                     species := SP_HUMAN, job := job_type.conc 0 },
                 choice_fr))) :=
  ⟨(reroll_restores_snapshot oracle_all_unrestricted (fun _ => char_env 'n')
      0 newgame_def.init choice_fr newgame_def.init
      { newgame_def.init with species := SP_HUMAN, job := job_type.conc 0 }
      choice_fr rfl (Or.inl rfl) (Or.inl rfl) rfl rfl rfl rfl rfl).1 rfl,
   (reroll_restores_snapshot oracle_all_unrestricted (fun _ => char_env 'q')
      0 newgame_def.init choice_fr newgame_def.init
      { newgame_def.init with species := SP_HUMAN, job := job_type.conc 0 }
      choice_fr rfl (Or.inl rfl) (Or.inl rfl) rfl rfl rfl rfl rfl).2.1 rfl,
   (reroll_restores_snapshot oracle_all_unrestricted (fun _ => char_env 'y')
      0 newgame_def.init choice_fr newgame_def.init
      { newgame_def.init with species := SP_HUMAN, job := job_type.conc 0 }
      choice_fr rfl (Or.inl rfl) (Or.inl rfl) rfl rfl rfl rfl rfl).2.2
      ({ newgame_def.init with species := SP_HUMAN, job := job_type.conc 0 },
       choice_fr) rfl rfl⟩
